import Mathlib

/-! Verification of the ChronoShift app (src/app.py): the
location-to-timezone resolution with its Streamlit memoization, the
session-state callback, the reset handler, and the date-to-UTC
conversion block with its offset label. -/

/-- Python `f"{n:02d}"`: zero-pad to two digits; used by the
`f"UTC{sign}{hours}:{minutes:02d}"` display (src/app.py line 114). -/
def pad02 (n : Nat) : String :=
  if n < 10 then "0" ++ toString n else toString n

/-- One two-digit field of `strftime('%z')` (hour and minute fields are
always below 100 there). -/
def z_field (n : Nat) : List Char :=
  [Nat.digitChar (n / 10), Nat.digitChar (n % 10)]

/-- The characters of `dt_aware.strftime('%z')` for a UTC offset of
`off` whole minutes: a sign, two hour digits, two minute digits
(e.g. +0530, -0300), the sign coming from the offset itself. -/
def strftime_z (off : Int) : List Char :=
  (if off < 0 then '-' else '+') :: (z_field (off.natAbs / 60) ++ z_field (off.natAbs % 60))

/-- Python `int(s)` on a two-character digit slice such as `z[1:3]`. -/
def int_of_2digits (a b : Char) : Nat :=
  (a.toNat - 48) * 10 + (b.toNat - 48)

/-- The offset label of src/app.py lines 104-114: take
`z = dt_aware.strftime('%z')`, read `sign = z[0]`,
`hours = int(z[1:3])`, `minutes = int(z[3:5])`, then pick `"UTC"`,
`f"UTC{sign}{hours}"`, or `f"UTC{sign}{hours}:{minutes:02d}"`. -/
def offset_str (off : Int) : String :=
  match strftime_z off with
  | sign :: h1 :: h2 :: m1 :: m2 :: _ =>
      let hours := int_of_2digits h1 h2
      let minutes := int_of_2digits m1 m2
      if minutes = 0 ∧ hours = 0 then "UTC"
      else if minutes = 0 then "UTC" ++ String.singleton sign ++ toString hours
      else "UTC" ++ String.singleton sign ++ toString hours ++ ":" ++ pad02 minutes
  | _ => ""

/-- The spec's offset-formatting law, stated from its words: `"UTC"`
when the offset is exactly zero; `"UTC"`, the offset's sign, and the
unpadded hour count when the minute component is zero; otherwise
`"UTC"`, sign, unpadded hours, a colon, and the minutes zero-padded to
two digits. -/
def sourceOffsetLabelSpec (off : Int) : String :=
  let hours := off.natAbs / 60
  let minutes := off.natAbs % 60
  let sign := if off < 0 then "-" else "+"
  if hours = 0 ∧ minutes = 0 then "UTC"
  else if minutes = 0 then "UTC" ++ sign ++ toString hours
  else "UTC" ++ sign ++ toString hours ++ ":" ++ pad02 minutes

/-- A geocoding hit, as returned by the Nominatim collaborator.  The
coordinates are only passed through to the timezone lookup, never
computed with by the app, so they are embedded as integers. -/
structure Location where
  latitude : Int
  longitude : Int
  address : String
deriving DecidableEq

/-- The external collaborators of `get_timezone_from_string`: the geopy
geocoder and the TimezoneFinder coordinate lookup.  `Except Unit`
models a raised exception (timeout, transport failure, malformed
response, anything else). -/
structure GeoEnv where
  geocode : String → Except Unit (Option Location)
  timezone_at : Int → Int → Except Unit (Option String)

/-- Body of `get_timezone_from_string` (src/app.py lines 13-23):
geocode the query; on a hit, look up the timezone at the hit's
coordinates and return it with the display address; on no hit return
`(None, None)`; any exception raised by either collaborator is caught
by the bare `except` and also yields `(None, None)`.  There is no
guard on the query: the geocoder is always invoked once. -/
def get_timezone_from_string (env : GeoEnv) (query : String) :
    Option String × Option String :=
  match env.geocode query with
  | .error _ => (none, none)
  | .ok none => (none, none)
  | .ok (some loc) =>
      match env.timezone_at loc.longitude loc.latitude with
      | .error _ => (none, none)
      | .ok tzOpt => (tzOpt, some loc.address)

/-- The `@st.cache_data` memo table of src/app.py line 12: an
association list keyed by the verbatim argument string, most recent
entry first. -/
abbrev LookupCache := List (String × (Option String × Option String))

/-- `get_timezone_from_string` as called through `@st.cache_data`: on a
key hit return the stored pair, consulting no collaborator; on a miss
run the body (which makes exactly one geocoder call) and store the
result — success or `(None, None)` alike — under the verbatim query.
The last component counts geocoder calls made by this invocation. -/
def get_timezone_cached (env : GeoEnv) (cache : LookupCache) (query : String) :
    (Option String × Option String) × LookupCache × Nat :=
  match cache.lookup query with
  | some r => (r, cache, 0)
  | none =>
      let r := get_timezone_from_string env query
      (r, (query, r) :: cache, 1)

/-- The Streamlit session-state keys that the location callback reads
or writes, plus a log of toast messages (most recent first). -/
structure SessionState where
  loc_input : String
  manual_timezone_selector : Option String
  toasts : List String
deriving DecidableEq

/-- `update_timezone_callback` (src/app.py lines 25-38), with the memo
cache threaded explicitly and geocoder calls counted.  The Python
truthiness guard `if query:` skips everything for the empty string;
otherwise the query is resolved through the cache, and a truthy
detected timezone (`if detected_tz:` — neither `None` nor `""`)
overwrites the selector key and toasts the address, while a falsy one
only emits a "not found" toast. -/
def update_timezone_callback (env : GeoEnv) (cache : LookupCache)
    (s : SessionState) : SessionState × LookupCache × Nat :=
  if s.loc_input = "" then (s, cache, 0)
  else
    match get_timezone_cached env cache s.loc_input with
    | ((detected, addr), cache2, n) =>
      match detected with
      | some tz =>
          if tz = "" then
            ({ s with toasts := "Location not found" :: s.toasts }, cache2, n)
          else
            ({ s with manual_timezone_selector := some tz,
                      toasts := ("Updated to: " ++ addr.getD "None") :: s.toasts },
             cache2, n)
      | none => ({ s with toasts := "Location not found" :: s.toasts }, cache2, n)

/-- Whole app state: the Streamlit session-state keys together with the
`@st.cache_data` memo table (which is not a session-state key). -/
structure AppState where
  session : SessionState
  cache : LookupCache
deriving DecidableEq

/-- The blank session that results from deleting every session-state
key: widgets re-render with empty text, no selection, no toasts. -/
def initialSession : SessionState :=
  { loc_input := "", manual_timezone_selector := none, toasts := [] }

/-- The Reset App handler (src/app.py lines 143-147): deletes every
session-state key and reruns.  The `@st.cache_data` memo table is not
stored in session state and is not touched by the loop. -/
def reset_app (s : AppState) : AppState :=
  { session := initialSession, cache := s.cache }

/-- The trim-and-case-fold normalization named by the spec as the cache
key ("Normalizes query (trim, case-fold) to form the cache key"):
surrounding whitespace removed, every character lower-cased. -/
def normalize_query (q : String) : String :=
  String.mk
    (((q.data.dropWhile Char.isWhitespace).reverse.dropWhile
        Char.isWhitespace).reverse.map Char.toLower)

/-- A geocoder that returns the same London hit for every query, with a
timezone lookup answering Europe/London; used for concrete runs. -/
def envLondon : GeoEnv where
  geocode := fun _ => .ok (some { latitude := 51, longitude := 0, address := "London, UK" })
  timezone_at := fun _ _ => .ok (some "Europe/London")

/-- A geocoder that finds no match for any query (as Nominatim does on
junk input) and a timezone lookup that never resolves. -/
def envNoHit : GeoEnv where
  geocode := fun _ => .ok none
  timezone_at := fun _ _ => .ok none

/-- A memo table already holding a resolved London entry. -/
def cacheLondon : LookupCache :=
  [("london", (some "Europe/London", some "London, UK"))]

/-- Modelled from the spec: one zone of the ZoneCatalog collaborator
(pytz), reduced to a single standard/daylight rule pair.  Offsets are
whole minutes east of UTC; `dstStartWall` is the first wall-clock
minute skipped when clocks jump forward, `dstEndWall` the first
wall-clock minute repeated when they fall back, both as naive local
readings. -/
structure DstZone where
  stdOffset : Int
  dstOffset : Int
  dstStartWall : Int
  dstEndWall : Int
deriving DecidableEq

/-- The naive wall-clock readings that do not exist because of the
spring-forward jump. -/
def inGap (z : DstZone) (t : Int) : Prop :=
  z.dstStartWall ≤ t ∧ t < z.dstStartWall + (z.dstOffset - z.stdOffset)

instance (z : DstZone) (t : Int) : Decidable (inGap z t) := by
  unfold inGap; infer_instance

/-- The naive wall-clock readings that occur twice because of the
fall-back jump. -/
def inOverlap (z : DstZone) (t : Int) : Prop :=
  z.dstEndWall ≤ t ∧ t < z.dstEndWall + (z.dstOffset - z.stdOffset)

instance (z : DstZone) (t : Int) : Decidable (inOverlap z t) := by
  unfold inOverlap; infer_instance

/-- Modelled from the spec: `source_tz.localize(dt_naive)` — pytz
`DstTzInfo.localize` at its default `is_dst=False`.  Unambiguous
readings get their interval's offset; ambiguous (fall-back) and
nonexistent (spring-forward) readings both resolve to the
standard-time interpretation instead of raising, so the function is
total. -/
def localizeOffset (z : DstZone) (t : Int) : Int :=
  if z.dstStartWall + (z.dstOffset - z.stdOffset) ≤ t ∧ t < z.dstEndWall
  then z.dstOffset else z.stdOffset

/-- Outcome of the instant-result block: the blanket `except` caption
("Waiting for a valid date format..."), the `st.info`/`st.stop` path
("Please select a timezone to proceed."), or a displayed conversion
(UTC timestamp in minutes plus the offset label). -/
inductive ConvOutcome where
  | unparseableDate
  | noZoneSelected
  | ok (utcMinutes : Int) (offsetLabel : String)
deriving DecidableEq

/-- The instant-result block (src/app.py lines 82-116), with the date
parser and the zone catalog as collaborators and the wall clock `now`
made explicit (the parser may consult it to fill in missing fields of
relative text).  Order follows the source: parse first, then the
selector emptiness check, then the `pytz.timezone` catalog lookup,
then localize and convert.  The `Nat` counts catalog lookups.  An
unknown zone name raises `UnknownTimeZoneError`, which the same
blanket `except` turns into the waiting-caption outcome. -/
def convert (parseDate : Int → String → Option Int)
    (catalog : String → Option DstZone) (now : Int)
    (raw : String) (zoneSel : Option String) : ConvOutcome × Nat :=
  match parseDate now raw with
  | none => (.unparseableDate, 0)
  | some t =>
      match zoneSel with
      | none => (.noZoneSelected, 0)
      | some z =>
          if z = "" then (.noZoneSelected, 0)
          else
            match catalog z with
            | none => (.unparseableDate, 1)
            | some tz =>
                let off := localizeOffset tz t
                (.ok (t - off) (offset_str off), 1)

/-- A date parser that always yields minute 130 (a reading inside the
spring-forward gap of `zoneNY`) whatever the clock says. -/
def parseFixed : Int → String → Option Int := fun _ _ => some 130

/-- A parser that fails on every input, whatever the clock says. -/
def parseNever : Int → String → Option Int := fun _ _ => none

/-- A one-zone catalog with a 60-minute daylight jump: clocks skip wall
minutes 100-159 in spring and repeat wall minutes 200-259 in autumn. -/
def zoneNY : DstZone :=
  { stdOffset := -300, dstOffset := -240, dstStartWall := 100, dstEndWall := 200 }

/-- A catalog resolving every name to `zoneNY`. -/
def catalogNY : String → Option DstZone := fun _ => some zoneNY

/-- A catalog with no zones at all. -/
def catalogEmpty : String → Option DstZone := fun _ => none

lemma utc_minus_append : "UTC" ++ "".push '-' = "UTC-" := by decide

lemma utc_plus_append : "UTC" ++ "".push '+' = "UTC+" := by decide

lemma int_of_2digits_digitChar :
    ∀ n < 100, int_of_2digits (Nat.digitChar (n / 10)) (Nat.digitChar (n % 10)) = n := by
  decide

/-- C1: for every localized source timestamp whose UTC offset is less
than a day in magnitude, the label computed by the code from the
`strftime('%z')` string equals the spec's formatting law. -/
theorem offset_label_matches_spec (off : Int) (h : off.natAbs ≤ 1439) :
    offset_str off = sourceOffsetLabelSpec off := by
  have hh : off.natAbs / 60 < 100 := by omega
  have hm : off.natAbs % 60 < 100 := by omega
  have eh := int_of_2digits_digitChar (off.natAbs / 60) hh
  have em := int_of_2digits_digitChar (off.natAbs % 60) hm
  unfold offset_str strftime_z z_field sourceOffsetLabelSpec
  simp only [List.cons_append, List.nil_append]
  simp only [eh, em]
  by_cases hneg : off < 0 <;>
    simp only [hneg, if_true, if_false, String.singleton] <;>
    by_cases h0 : off.natAbs % 60 = 0 <;>
    by_cases h1 : off.natAbs / 60 = 0 <;>
    simp [h0, h1, and_comm, utc_minus_append, utc_plus_append]

/-- Witness for C1 at the +5:30 offset of the spec's examples. -/
theorem offset_label_matches_spec_witness :
    (330 : Int).natAbs ≤ 1439 ∧ offset_str 330 = sourceOffsetLabelSpec 330 :=
  ⟨by decide, offset_label_matches_spec 330 (by decide)⟩

/-- C2: an unparseable date fails with the UnparseableDate outcome and
zero zone-catalog lookups, whatever zone is selected; a parseable date
with an absent or empty zone selection fails with NoZoneSelected —
no default zone is assumed — again with zero zone-catalog lookups. -/
theorem convert_failure_precedence
    (parseDate : Int → String → Option Int) (catalog : String → Option DstZone)
    (now : Int) (raw : String) (zoneSel : Option String) :
    (parseDate now raw = none →
      convert parseDate catalog now raw zoneSel = (.unparseableDate, 0)) ∧
    (∀ t, parseDate now raw = some t → zoneSel = none ∨ zoneSel = some "" →
      convert parseDate catalog now raw zoneSel = (.noZoneSelected, 0)) := by
  constructor
  · intro h; simp [convert, h]
  · rintro t h (rfl | rfl) <;> simp [convert, h]

/-- Witness for C2: a never-parsing input fails before the catalog even
with the valid zone Europe/London selected. -/
theorem convert_failure_precedence_witness :
    parseNever 0 "not a date" = none ∧
    convert parseNever catalogNY 0 "not a date" (some "Europe/London")
      = (.unparseableDate, 0) :=
  ⟨rfl, (convert_failure_precedence parseNever catalogNY 0 "not a date"
      (some "Europe/London")).1 rfl⟩

/-- C3 counterexample: resolving "london" and then "LONDON" through the
`@st.cache_data` wrapper issues one geocoder call each and leaves two
cache entries — the key is the verbatim query, not a normalized one. -/
theorem cache_key_not_normalized_cex :
    (get_timezone_cached envLondon [] "london").2.2 = 1 ∧
    (get_timezone_cached envLondon
        ((get_timezone_cached envLondon [] "london").2.1) "LONDON").2.2 = 1 ∧
    ((get_timezone_cached envLondon
        ((get_timezone_cached envLondon [] "london").2.1) "LONDON").2.1).length = 2 := by
  decide

/-- C3 amended: the cache keys on the verbatim query string, storing
each variant under its own entry; case and whitespace variants resolve
to the same zone identifier exactly when the geocoding collaborator is
itself invariant under trim-and-case-fold normalization. -/
theorem cache_verbatim_key_amended (env : GeoEnv) (q1 q2 : String)
    (hg : ∀ q, env.geocode q = env.geocode (normalize_query q))
    (hn : normalize_query q1 = normalize_query q2) :
    get_timezone_from_string env q1 = get_timezone_from_string env q2 ∧
    (get_timezone_cached env [] q1).2.1
      = [(q1, get_timezone_from_string env q1)] := by
  have hq : env.geocode q1 = env.geocode q2 := by rw [hg q1, hn, ← hg q2]
  constructor
  · unfold get_timezone_from_string
    rw [hq]
  · unfold get_timezone_cached
    simp [List.lookup]

/-- Witness for C3 amended: with a normalization-blind geocoder,
"london" and "LONDON" resolve identically while the first is cached
under its own verbatim key. -/
theorem cache_verbatim_key_amended_witness :
    (∀ q, envLondon.geocode q = envLondon.geocode (normalize_query q)) ∧
    normalize_query "london" = normalize_query "LONDON" ∧
    (get_timezone_from_string envLondon "london"
        = get_timezone_from_string envLondon "LONDON" ∧
      (get_timezone_cached envLondon [] "london").2.1
        = [("london", get_timezone_from_string envLondon "london")]) :=
  ⟨fun _ => rfl, by decide,
    cache_verbatim_key_amended envLondon "london" "LONDON" (fun _ => rfl) (by decide)⟩

/-- C4: an exception from the geocoder, or a geocoder hit followed by
an exception from the timezone lookup, is swallowed by the bare
`except` and mapped to the `(None, None)` NotFound outcome; nothing
propagates to the caller. -/
theorem resolution_swallows_collaborator_errors (env : GeoEnv) (query : String) :
    (env.geocode query = .error () →
      get_timezone_from_string env query = (none, none)) ∧
    (∀ loc, env.geocode query = .ok (some loc) →
      env.timezone_at loc.longitude loc.latitude = .error () →
      get_timezone_from_string env query = (none, none)) := by
  constructor
  · intro h; simp [get_timezone_from_string, h]
  · intro loc h1 h2; simp [get_timezone_from_string, h1, h2]

/-- Witness for C4: a geocoder that raises on every query yields
`(None, None)` for "London". -/
theorem resolution_swallows_collaborator_errors_witness :
    (GeoEnv.mk (fun _ => .error ()) (fun _ _ => .error ())).geocode "London" = .error () ∧
    get_timezone_from_string
      (GeoEnv.mk (fun _ => .error ()) (fun _ _ => .error ())) "London" = (none, none) :=
  ⟨rfl, (resolution_swallows_collaborator_errors
      (GeoEnv.mk (fun _ => .error ()) (fun _ _ => .error ())) "London").1 rfl⟩

/-- C5 counterexample: the resolution function has no emptiness guard —
an empty query and a whitespace-only query each trigger one outbound
geocoder call, both directly and through the callback. -/
theorem empty_query_outbound_call_cex :
    (get_timezone_cached envNoHit [] "").2.2 = 1 ∧
    (get_timezone_cached envNoHit [] "   ").2.2 = 1 ∧
    (update_timezone_callback envNoHit []
      { loc_input := "   ", manual_timezone_selector := none, toasts := [] }).2.2 = 1 := by
  decide

/-- C5 amended: only the callback's truthiness guard short-circuits,
and only for the exactly-empty query (no outbound call, no state
change); any other query — whitespace-only included — reaching the
resolution function for the first time makes exactly one outbound
geocoder call. -/
theorem empty_query_guard_amended (env : GeoEnv) (cache : LookupCache)
    (s : SessionState) (h : s.loc_input = "") (q : String) :
    update_timezone_callback env cache s = (s, cache, 0) ∧
    (get_timezone_cached env [] q).2.2 = 1 := by
  constructor
  · simp [update_timezone_callback, h]
  · unfold get_timezone_cached
    simp [List.lookup]

/-- Witness for C5 amended at an empty callback input and the
whitespace-only query. -/
theorem empty_query_guard_amended_witness :
    (initialSession.loc_input = "") ∧
    (update_timezone_callback envNoHit [] initialSession = (initialSession, [], 0) ∧
      (get_timezone_cached envNoHit [] "   ").2.2 = 1) :=
  ⟨rfl, empty_query_guard_amended envNoHit [] initialSession rfl "   "⟩

/-- C6: when the cached resolution of the current location input is a
failure (no timezone detected, or a falsy empty one), the callback
leaves the previously selected timezone untouched. -/
theorem callback_preserves_selection_on_failure (env : GeoEnv)
    (cache : LookupCache) (s : SessionState)
    (h : (get_timezone_cached env cache s.loc_input).1.1 = none ∨
         (get_timezone_cached env cache s.loc_input).1.1 = some "") :
    ((update_timezone_callback env cache s).1).manual_timezone_selector
      = s.manual_timezone_selector := by
  unfold update_timezone_callback
  by_cases he : s.loc_input = ""
  · simp [he]
  · rcases hr : get_timezone_cached env cache s.loc_input with ⟨⟨detected, addr⟩, c2, n⟩
    rw [hr] at h
    simp only at h
    rcases h with h | h <;> subst h <;> simp [he, hr]

/-- Witness for C6: a failing lookup for "Atlantis" leaves a previously
selected Asia/Tokyo untouched. -/
theorem callback_preserves_selection_on_failure_witness :
    ((get_timezone_cached envNoHit []
        (SessionState.mk "Atlantis" (some "Asia/Tokyo") []).loc_input).1.1 = none ∨
      (get_timezone_cached envNoHit []
        (SessionState.mk "Atlantis" (some "Asia/Tokyo") []).loc_input).1.1 = some "") ∧
    ((update_timezone_callback envNoHit []
        (SessionState.mk "Atlantis" (some "Asia/Tokyo") [])).1).manual_timezone_selector
      = some "Asia/Tokyo" :=
  ⟨Or.inl (by decide),
    callback_preserves_selection_on_failure envNoHit []
      (SessionState.mk "Atlantis" (some "Asia/Tokyo") []) (Or.inl (by decide))⟩

/-- C7: a second cached resolution of the same query returns the same
stored outcome — success and `(None, None)` alike — makes no geocoder
call, leaves the cache unchanged, and the two calls together make at
most one geocoder call. -/
theorem cached_resolution_idempotent (env : GeoEnv) (cache : LookupCache) (q : String) :
    (get_timezone_cached env ((get_timezone_cached env cache q).2.1) q).1
        = (get_timezone_cached env cache q).1 ∧
    (get_timezone_cached env ((get_timezone_cached env cache q).2.1) q).2.1
        = (get_timezone_cached env cache q).2.1 ∧
    (get_timezone_cached env ((get_timezone_cached env cache q).2.1) q).2.2 = 0 ∧
    (get_timezone_cached env cache q).2.2
        + (get_timezone_cached env ((get_timezone_cached env cache q).2.1) q).2.2 ≤ 1 := by
  unfold get_timezone_cached
  cases h : cache.lookup q with
  | some r => simp [h]
  | none => simp [h, List.lookup]

/-- C8 counterexample: after the Reset App handler runs on a state
whose memo table holds a resolved "london" entry, looking "london" up
again is still a hit — zero geocoder calls and the stored value — not
the miss the claim demands. -/
theorem reset_keeps_cache_cex :
    (get_timezone_cached envNoHit
        (reset_app (AppState.mk (SessionState.mk "x" (some "Europe/London") []) cacheLondon)).cache
        "london").2.2 = 0 ∧
    (get_timezone_cached envNoHit
        (reset_app (AppState.mk (SessionState.mk "x" (some "Europe/London") []) cacheLondon)).cache
        "london").1 = (some "Europe/London", some "London, UK") := by
  decide

/-- C8 amended: the reset handler clears every session-state key —
inputs blank, no timezone selected — but the `@st.cache_data` memo
table is not session state and survives, so cached resolutions behave
exactly as before the reset. -/
theorem reset_clears_session_not_cache (s : AppState) (env : GeoEnv) (q : String) :
    (reset_app s).session = initialSession ∧
    get_timezone_cached env (reset_app s).cache q
      = get_timezone_cached env s.cache q :=
  ⟨rfl, rfl⟩

/-- C9: the conversion is a pure function of its explicit arguments —
two runs with the same arguments agree — and the wall clock can only
enter through the date parser: whenever the parser's answer for this
text is clock-independent, so is the whole conversion. -/
theorem convert_deterministic_now_independent
    (parseDate : Int → String → Option Int) (catalog : String → Option DstZone)
    (raw : String) (zoneSel : Option String) (now1 now2 : Int)
    (h : parseDate now1 raw = parseDate now2 raw) :
    convert parseDate catalog now1 raw zoneSel
        = convert parseDate catalog now1 raw zoneSel ∧
    convert parseDate catalog now1 raw zoneSel
        = convert parseDate catalog now2 raw zoneSel := by
  refine ⟨rfl, ?_⟩
  unfold convert
  rw [h]

/-- Witness for C9 with an absolute-text parser evaluated at two
different clock readings. -/
theorem convert_deterministic_now_independent_witness :
    parseFixed 0 "2026-02-03 14:30" = parseFixed 99 "2026-02-03 14:30" ∧
    (convert parseFixed catalogNY 0 "2026-02-03 14:30" (some "America/New_York")
        = convert parseFixed catalogNY 0 "2026-02-03 14:30" (some "America/New_York") ∧
      convert parseFixed catalogNY 0 "2026-02-03 14:30" (some "America/New_York")
        = convert parseFixed catalogNY 99 "2026-02-03 14:30" (some "America/New_York")) :=
  ⟨rfl, convert_deterministic_now_independent parseFixed catalogNY
      "2026-02-03 14:30" (some "America/New_York") 0 99 rfl⟩

/-- C10: for a parseable date and a zone the catalog knows, the
conversion always reaches the displayed result — the error branch is
never taken — and on a reading inside the DST gap or the DST overlap
the localization resolves to the standard offset, pytz's default
`is_dst=False` disambiguation. -/
theorem convert_total_on_dst_gap_overlap
    (parseDate : Int → String → Option Int) (catalog : String → Option DstZone)
    (now t : Int) (raw z : String) (tz : DstZone)
    (hp : parseDate now raw = some t) (hz : z ≠ "") (hc : catalog z = some tz) :
    convert parseDate catalog now raw (some z)
      = (.ok (t - localizeOffset tz t) (offset_str (localizeOffset tz t)), 1) ∧
    (inGap tz t ∨ inOverlap tz t → localizeOffset tz t = tz.stdOffset) := by
  constructor
  · simp [convert, hp, hz, hc]
  · unfold inGap inOverlap localizeOffset
    rintro (⟨h1, h2⟩ | ⟨h1, h2⟩) <;> rw [if_neg (by omega)]

/-- Witness for C10 at wall reading 130, inside the spring-forward gap
of `zoneNY`: the conversion succeeds and uses the standard offset. -/
theorem convert_total_on_dst_gap_overlap_witness :
    parseFixed 0 "2026-03-08 02:10" = some 130 ∧
    ("America/New_York" ≠ "") ∧
    catalogNY "America/New_York" = some zoneNY ∧
    inGap zoneNY 130 ∧
    (convert parseFixed catalogNY 0 "2026-03-08 02:10" (some "America/New_York")
        = (.ok (130 - localizeOffset zoneNY 130) (offset_str (localizeOffset zoneNY 130)), 1) ∧
      (inGap zoneNY 130 ∨ inOverlap zoneNY 130 →
        localizeOffset zoneNY 130 = zoneNY.stdOffset)) :=
  ⟨rfl, by decide, rfl, by decide,
    convert_total_on_dst_gap_overlap parseFixed catalogNY 0 130
      "2026-03-08 02:10" "America/New_York" zoneNY rfl (by decide) rfl⟩
